import Mathlib

/-!
Shallow embedding of the portfolio/cache/transaction engine of
`trading/models/portfolio_model.py` (class `PortfolioModel`), together with
the input-coercion semantics of Python that its validators rely on.

Conventions of the embedding:
* Python `dict[str, _]` state is modelled as an insertion-ordered association
  list `List (String × _)`; `dictGet`, `dictSet`, `dictDel` mirror Python's
  `d[k]`, `d[k] = v` and `del d[k]`.
* Prices and wall-clock times are modelled as exact rationals `ℚ`; the float
  values appearing in the repository (174.35, 180.0, ...) are exactly
  representable, so arithmetic on them agrees with the source.
* The two external collaborators are passed in as oracles: `db` models
  `Stocks.get_stock_by_ticker` (`none` = the `ValueError` raised when the
  ticker is not in the database) and `fetch` models
  `api_utils.get_current_price` (`none` = the raised `ValueError`).
* A method raising a Python exception is modelled as returning
  `Except PyErr _` together with the state at the moment the exception
  escapes; cache-returning helpers additionally return how many external
  (provider or database) calls they performed.
-/

namespace Trading

/-- Python runtime errors that the embedded methods can surface.
`valueError` carries the message of a raised `ValueError`;
`unboundLocalError` models Python's `UnboundLocalError` (a `NameError`
subclass, hence not caught by `except ValueError`) raised when a local
variable is read before its first assignment. -/
inductive PyErr where
  | valueError (msg : String)
  | unboundLocalError (name : String)
deriving DecidableEq, Repr

/-- Dynamically-typed inputs reaching `validate_shares_count`: Python ints,
floats (given by their exact rational value), strings, and `None`. -/
inductive PyVal where
  | int (n : Int)
  | float (q : ℚ)
  | str (s : String)
  | nil
deriving DecidableEq, Repr

/-- Truncation toward zero, the behaviour of Python's `int()` on a float:
`int(2.5) == 2`, `int(-2.5) == -2`. -/
def pyTrunc (q : ℚ) : Int :=
  if 0 ≤ q then q.floor else q.ceil

/-- Value of a non-empty all-digit character list, `none` otherwise. -/
def digitsToNat (cs : List Char) : Option Nat :=
  if cs ≠ [] ∧ cs.all Char.isDigit then
    some (cs.foldl (fun acc c => acc * 10 + (c.toNat - 48)) 0)
  else
    none

/-- Python's `int()` on a string: surrounding whitespace is stripped, an
optional sign is followed by decimal digits; anything else (in particular a
fractional literal such as "2.5") raises `ValueError`, modelled as `none`. -/
def pyIntOfString (s : String) : Option Int :=
  match s.trim.data with
  | '-' :: cs => (digitsToNat cs).map (fun n => -(n : Int))
  | '+' :: cs => (digitsToNat cs).map (fun n => (n : Int))
  | cs => (digitsToNat cs).map (fun n => (n : Int))

/-- Python's `int(x)` coercion on the embedded value domain: the identity on
ints, truncation toward zero on floats, decimal parsing on strings, and a
`TypeError` (modelled as `none`) on `None`. -/
def pyInt : PyVal → Option Int
  | .int n => some n
  | .float q => some (pyTrunc q)
  | .str s => pyIntOfString s
  | .nil => none

/-- Lookup in an association list, mirroring a Python dict read. -/
def dictGet {α : Type} : List (String × α) → String → Option α
  | [], _ => none
  | (k, v) :: rest, key => if k = key then some v else dictGet rest key

/-- Update/insert in an association list, mirroring `d[k] = v` on a Python
dict: an existing key keeps its position, a new key is appended. -/
def dictSet {α : Type} : List (String × α) → String → α → List (String × α)
  | [], key, v => [(key, v)]
  | (k, w) :: rest, key, v =>
      if k = key then (key, v) :: rest else (k, w) :: dictSet rest key v

/-- Deletion from an association list, mirroring `del d[k]`. -/
def dictDel {α : Type} (m : List (String × α)) (key : String) :
    List (String × α) :=
  m.filter (fun p => decide (p.1 ≠ key))

/-- Row of the `Stocks` table that `_get_stock_from_cache_or_db` caches
(`stock_model.py`): a ticker and its last stored price. -/
structure Stocks where
  ticker : String
  currentPrice : ℚ
deriving DecidableEq, Repr

/-- Mutable state of a `PortfolioModel` instance (`__init__`):
`portfolio` maps tickers to share counts, `stockCache` and `priceCache` are
the two value caches, and `ttl` is the SINGLE expiry map `self._ttl` that
both caches share; `ttlSeconds` is `int(os.getenv("TTL", 60))`. -/
structure PortfolioState where
  portfolio : List (String × Int)
  stockCache : List (String × Stocks)
  priceCache : List (String × ℚ)
  ttl : List (String × ℚ)
  ttlSeconds : ℚ
deriving DecidableEq, Repr

/-- State of a freshly constructed `PortfolioModel` with the default TTL of
60 seconds. -/
def initState : PortfolioState :=
  { portfolio := [], stockCache := [], priceCache := [], ttl := [],
    ttlSeconds := 60 }

/-- Discriminator for the error case of `Except`. -/
def isErr {ε α : Type} : Except ε α → Bool
  | .error _ => true
  | .ok _ => false

/-- Embedding of `PortfolioModel.validate_shares_count` (lines 668-689):
`shares = int(shares)` followed by `if shares <= 0: raise ValueError`, with
`except (ValueError, TypeError)` turning every failure into the
invalid-share-count `ValueError`. -/
def validateSharesCount (shares : PyVal) : Except PyErr Int :=
  match pyInt shares with
  | none => .error (.valueError "Number of shares must be a positive integer")
  | some n =>
      if n ≤ 0 then
        .error (.valueError "Number of shares must be a positive integer")
      else
        .ok n

/-- Embedding of `PortfolioModel.check_if_empty` (lines 715-725). -/
def checkIfEmpty (s : PortfolioState) : Except PyErr Unit :=
  if s.portfolio = [] then .error (.valueError "Portfolio is empty") else .ok ()

/-- Database-miss/expired path of `_get_stock_from_cache_or_db` (lines
147-156): one `Stocks.get_stock_by_ticker` call; on success the stock cache
and the shared `_ttl` map are updated, on failure a `ValueError` is raised
with the state untouched. The `Nat` is the number of database calls. -/
def stockFetchAndInstall (db : String → Option Stocks) (s : PortfolioState)
    (ticker : String) (now : ℚ) : Except PyErr Stocks × PortfolioState × Nat :=
  match db ticker with
  | none =>
      (.error (.valueError ("Stock " ++ ticker ++ " not found in database")),
       s, 1)
  | some st =>
      (.ok st,
       { s with stockCache := dictSet s.stockCache ticker st,
                ttl := dictSet s.ttl ticker (now + s.ttlSeconds) }, 1)

/-- Embedding of `PortfolioModel._get_stock_from_cache_or_db` (lines
125-156): a cache hit requires `ticker in self._stock_cache` and
`self._ttl.get(ticker, 0) > now` and performs no database call; otherwise
the database is queried once. -/
def getStockFromCacheOrDb (db : String → Option Stocks) (s : PortfolioState)
    (ticker : String) (now : ℚ) : Except PyErr Stocks × PortfolioState × Nat :=
  match dictGet s.stockCache ticker with
  | some st =>
      if (dictGet s.ttl ticker).getD 0 > now then (.ok st, s, 0)
      else stockFetchAndInstall db s ticker now
  | none => stockFetchAndInstall db s ticker now

/-- Provider-miss/expired path of `_get_stock_price_from_cache_or_market`
(lines 185-194): one `get_current_price` call; on success the price cache
and the shared `_ttl` map are updated, on failure a `ValueError` is raised
with the state untouched. The `Nat` is the number of provider calls. -/
def priceFetchAndInstall (fetch : String → Option ℚ) (s : PortfolioState)
    (sym : String) (now : ℚ) : Except PyErr ℚ × PortfolioState × Nat :=
  match fetch sym with
  | none =>
      (.error (.valueError ("Could not retrieve market price for " ++ sym)),
       s, 1)
  | some price =>
      (.ok price,
       { s with priceCache := dictSet s.priceCache sym price,
                ttl := dictSet s.ttl sym (now + s.ttlSeconds) }, 1)

/-- Embedding of `PortfolioModel._get_stock_price_from_cache_or_market`
(lines 162-194): the symbol is upper-cased, a cache hit requires
`stock_symbol in self._price_cache` and `self._ttl.get(stock_symbol, 0) >
now` and performs no provider call; otherwise the provider is queried
once. -/
def getPriceFromCacheOrMarket (fetch : String → Option ℚ) (s : PortfolioState)
    (stockSymbol : String) (now : ℚ) :
    Except PyErr ℚ × PortfolioState × Nat :=
  let sym := stockSymbol.toUpper
  match dictGet s.priceCache sym with
  | some cached =>
      if (dictGet s.ttl sym).getD 0 > now then (.ok cached, s, 0)
      else priceFetchAndInstall fetch s sym now
  | none => priceFetchAndInstall fetch s sym now

/-- Embedding of `PortfolioModel.validate_stock_ticker` (lines 638-666):
when `check_in_portfolio` is true a ticker absent from the portfolio is
rejected; then the ticker must resolve through `_get_stock_from_cache_or_db`
(any failure is re-raised as the not-found-in-database `ValueError`). The
ticker is returned unchanged. -/
def validateStockTicker (db : String → Option Stocks) (s : PortfolioState)
    (ticker : String) (checkInPortfolio : Bool) (now : ℚ) :
    Except PyErr String × PortfolioState :=
  if checkInPortfolio && (dictGet s.portfolio ticker).isNone then
    (.error (.valueError ("Stock " ++ ticker ++ " not found in portfolio")), s)
  else
    match getStockFromCacheOrDb db s ticker now with
    | (.error _, s1, _) =>
        (.error (.valueError ("Stock " ++ ticker ++ " not found in database")),
         s1)
    | (.ok _, s1, _) => (.ok ticker, s1)

/-- Transaction record returned by `buy_stock` / `sell_stock`; `total` is
the `total_cost` field of a BUY and the `total_proceeds` field of a SELL. -/
structure Receipt where
  transactionType : String
  stockSymbol : String
  shares : Int
  pricePerShare : ℚ
  total : ℚ
  timestamp : ℚ
deriving DecidableEq, Repr

/-- Embedding of `PortfolioModel.buy_stock` (lines 196-241). Note that the
source calls `self.validate_stock_ticker(stock_symbol)` with the DEFAULT
`check_in_portfolio=True`, so the validation rejects any ticker not already
held. Validation and pricing precede the single portfolio mutation. -/
def buyStock (db : String → Option Stocks) (fetch : String → Option ℚ)
    (s : PortfolioState) (stockSymbol : String) (shares : PyVal) (now : ℚ) :
    Except PyErr Receipt × PortfolioState :=
  match validateStockTicker db s stockSymbol true now with
  | (.error e, s1) => (.error e, s1)
  | (.ok sym, s1) =>
      match validateSharesCount shares with
      | .error e => (.error e, s1)
      | .ok n =>
          match getPriceFromCacheOrMarket fetch s1 sym now with
          | (.error e, s2, _) => (.error e, s2)
          | (.ok price, s2, _) =>
              let newQty :=
                match dictGet s2.portfolio sym with
                | some q => q + n
                | none => n
              (.ok { transactionType := "BUY", stockSymbol := sym, shares := n,
                     pricePerShare := price, total := price * (n : ℚ),
                     timestamp := now },
               { s2 with portfolio := dictSet s2.portfolio sym newQty })

/-- Embedding of `PortfolioModel.sell_stock` (lines 243-302): empty check,
validation, ownership and sufficiency checks, price fetch, then the
decrement, deleting the entry when it reaches exactly 0. -/
def sellStock (db : String → Option Stocks) (fetch : String → Option ℚ)
    (s : PortfolioState) (stockSymbol : String) (shares : PyVal) (now : ℚ) :
    Except PyErr Receipt × PortfolioState :=
  if s.portfolio = [] then (.error (.valueError "Portfolio is empty"), s)
  else
    match validateStockTicker db s stockSymbol true now with
    | (.error e, s1) => (.error e, s1)
    | (.ok sym, s1) =>
        match validateSharesCount shares with
        | .error e => (.error e, s1)
        | .ok n =>
            match dictGet s1.portfolio sym with
            | none =>
                (.error (.valueError ("You don't own any shares of " ++ sym)),
                 s1)
            | some owned =>
                if owned < n then
                  (.error (.valueError ("You only have " ++ toString owned ++
                     " shares of " ++ sym ++ ", but attempted to sell " ++
                     toString n)), s1)
                else
                  match getPriceFromCacheOrMarket fetch s1 sym now with
                  | (.error e, s2, _) => (.error e, s2)
                  | (.ok price, s2, _) =>
                      let newPortfolio :=
                        if owned - n = 0 then dictDel s2.portfolio sym
                        else dictSet s2.portfolio sym (owned - n)
                      (.ok { transactionType := "SELL", stockSymbol := sym,
                             shares := n, pricePerShare := price,
                             total := price * (n : ℚ), timestamp := now },
                       { s2 with portfolio := newPortfolio })

/-- Embedding of `PortfolioModel.add_stock_to_portfolio` (lines 38-64).
In the source's insert branch, `stock = self._get_stock_from_cache_or_db(stock)`
reads the local variable `stock` before its first assignment, so Python
raises `UnboundLocalError` while evaluating the argument; the surrounding
`except ValueError` does not catch it (it is a `NameError` subclass) and the
insertion `self.portfolio[ticker] = quantity` on the next line is never
reached. -/
def addStockToPortfolio (db : String → Option Stocks) (s : PortfolioState)
    (ticker : String) (quantity : Int) (now : ℚ) :
    Except PyErr Unit × PortfolioState :=
  match validateStockTicker db s ticker false now with
  | (.error e, s1) => (.error e, s1)
  | (.ok t, s1) =>
      match dictGet s1.portfolio t with
      | some q =>
          (.ok (), { s1 with portfolio := dictSet s1.portfolio t (q + quantity) })
      | none => (.error (.unboundLocalError "stock"), s1)

/-- Embedding of `PortfolioModel.remove_stock_from_portfolio` (lines 66-95):
empty check, validation, ownership and sufficiency checks, then the
decrement, deleting the entry when the removed quantity equals the held
quantity. -/
def removeStockFromPortfolio (db : String → Option Stocks)
    (s : PortfolioState) (ticker : String) (quantity : Int) (now : ℚ) :
    Except PyErr Unit × PortfolioState :=
  if s.portfolio = [] then (.error (.valueError "Portfolio is empty"), s)
  else
    match validateStockTicker db s ticker true now with
    | (.error e, s1) => (.error e, s1)
    | (.ok t, s1) =>
        match dictGet s1.portfolio t with
        | none =>
            (.error (.valueError ("Stock " ++ t ++ " not found in the portfolio")),
             s1)
        | some owned =>
            if owned < quantity then
              (.error (.valueError ("Tried to remove more shares than held of " ++ t)),
               s1)
            else if owned = quantity then
              (.ok (), { s1 with portfolio := dictDel s1.portfolio t })
            else
              (.ok (), { s1 with portfolio := dictSet s1.portfolio t (owned - quantity) })

/-- Embedding of `PortfolioModel.calculate_portfolio_value` (lines 97-122).
The source iterates the holdings calling `get_current_price(ticker)`
DIRECTLY (not through either cache), and its `except Exception` swallows a
failed fetch — logging a warning, skipping the ticker and continuing — so
the returned total is the sum over the tickers whose fetch succeeded. The
`Nat` counts provider calls (one per held ticker). The state is neither read
(beyond `portfolio`) nor mutated, so it is not threaded. -/
def calculatePortfolioValue (fetch : String → Option ℚ)
    (s : PortfolioState) : Except PyErr ℚ × Nat :=
  if s.portfolio = [] then (.error (.valueError "Portfolio is empty"), 0)
  else
    let r := s.portfolio.foldl
      (fun acc p =>
        match fetch p.1 with
        | some price => (acc.1 + price * (p.2 : ℚ), acc.2 + 1)
        | none => (acc.1, acc.2 + 1))
      ((0 : ℚ), (0 : Nat))
    (.ok r.1, r.2)

/-! ## Association-list lemmas -/

theorem mem_dictSet {α : Type} (m : List (String × α)) (k : String) (v : α)
    (p : String × α) (hp : p ∈ dictSet m k v) : p ∈ m ∨ p = (k, v) := by
  induction m with
  | nil =>
      simp only [dictSet, List.mem_singleton] at hp
      exact Or.inr hp
  | cons hd tl ih =>
      rcases hd with ⟨k', w⟩
      by_cases h : k' = k
      · simp only [dictSet, if_pos h, List.mem_cons] at hp
        rcases hp with hp | hp
        · exact Or.inr hp
        · exact Or.inl (List.mem_cons_of_mem _ hp)
      · simp only [dictSet, if_neg h, List.mem_cons] at hp
        rcases hp with hp | hp
        · exact Or.inl (by simp [hp])
        · rcases ih hp with h1 | h1
          · exact Or.inl (List.mem_cons_of_mem _ h1)
          · exact Or.inr h1

theorem mem_dictDel {α : Type} (m : List (String × α)) (k : String)
    (p : String × α) (hp : p ∈ dictDel m k) : p ∈ m :=
  (List.mem_filter.mp hp).1

theorem dictGet_mem {α : Type} (m : List (String × α)) (k : String) (v : α)
    (h : dictGet m k = some v) : (k, v) ∈ m := by
  induction m with
  | nil => simp [dictGet] at h
  | cons hd tl ih =>
      rcases hd with ⟨k', w⟩
      by_cases hk : k' = k
      · simp only [dictGet, if_pos hk] at h
        subst hk
        simp [← Option.some_inj.mp h]
      · simp only [dictGet, if_neg hk] at h
        exact List.mem_cons_of_mem _ (ih h)

/-! ## The helpers never touch the holdings map -/

theorem stockFetch_portfolio (db : String → Option Stocks)
    (s : PortfolioState) (ticker : String) (now : ℚ) :
    (stockFetchAndInstall db s ticker now).2.1.portfolio = s.portfolio := by
  unfold stockFetchAndInstall
  rcases db ticker with _ | st <;> rfl

theorem getStock_portfolio (db : String → Option Stocks)
    (s : PortfolioState) (ticker : String) (now : ℚ) :
    (getStockFromCacheOrDb db s ticker now).2.1.portfolio = s.portfolio := by
  unfold getStockFromCacheOrDb
  split
  · split
    · rfl
    · exact stockFetch_portfolio db s ticker now
  · exact stockFetch_portfolio db s ticker now

theorem priceFetch_portfolio (fetch : String → Option ℚ)
    (s : PortfolioState) (sym : String) (now : ℚ) :
    (priceFetchAndInstall fetch s sym now).2.1.portfolio = s.portfolio := by
  unfold priceFetchAndInstall
  rcases fetch sym with _ | p <;> rfl

theorem getPrice_portfolio (fetch : String → Option ℚ)
    (s : PortfolioState) (stockSymbol : String) (now : ℚ) :
    (getPriceFromCacheOrMarket fetch s stockSymbol now).2.1.portfolio =
      s.portfolio := by
  unfold getPriceFromCacheOrMarket
  dsimp only
  split
  · split
    · rfl
    · exact priceFetch_portfolio fetch s stockSymbol.toUpper now
  · exact priceFetch_portfolio fetch s stockSymbol.toUpper now

theorem validate_portfolio (db : String → Option Stocks) (s : PortfolioState)
    (ticker : String) (b : Bool) (now : ℚ) :
    (validateStockTicker db s ticker b now).2.portfolio = s.portfolio := by
  unfold validateStockTicker
  split
  · rfl
  · split
    next e s1 n heq =>
      have hg := getStock_portfolio db s ticker now
      rw [heq] at hg
      simpa using hg
    next a s1 n heq =>
      have hg := getStock_portfolio db s ticker now
      rw [heq] at hg
      simpa using hg

theorem validate_ok_ticker (db : String → Option Stocks) (s : PortfolioState)
    (ticker : String) (b : Bool) (now : ℚ) (u : String)
    (s1 : PortfolioState)
    (h : validateStockTicker db s ticker b now = (.ok u, s1)) : u = ticker := by
  unfold validateStockTicker at h
  split at h
  · simp at h
  · split at h
    · simp at h
    · simp only [Prod.mk.injEq, Except.ok.injEq] at h
      exact h.1.symm

theorem sharesCount_pos (v : PyVal) (n : Int)
    (h : validateSharesCount v = .ok n) : 0 < n := by
  unfold validateSharesCount at h
  cases hv : pyInt v with
  | none =>
      rw [hv] at h
      exact absurd h (by simp)
  | some m =>
      rw [hv] at h
      dsimp only at h
      by_cases hm : m ≤ 0
      · rw [if_pos hm] at h
        exact absurd h (by simp)
      · rw [if_neg hm] at h
        have hmn : m = n := by simpa using h
        omega

def portfolioInv (m : List (String × Int)) : Bool :=
  m.all (fun p => decide (0 < p.2))

theorem portfolioInv_iff (m : List (String × Int)) :
    portfolioInv m = true ↔ ∀ p ∈ m, 0 < p.2 := by
  simp [portfolioInv]

theorem portfolioInv_dictSet (m : List (String × Int)) (k : String) (v : Int)
    (hm : portfolioInv m = true) (hv : 0 < v) :
    portfolioInv (dictSet m k v) = true := by
  rw [portfolioInv_iff] at hm ⊢
  intro p hp
  rcases mem_dictSet m k v p hp with h | h
  · exact hm p h
  · rw [h]
    exact hv

theorem portfolioInv_dictDel (m : List (String × Int)) (k : String)
    (hm : portfolioInv m = true) : portfolioInv (dictDel m k) = true := by
  rw [portfolioInv_iff] at hm ⊢
  intro p hp
  exact hm p (mem_dictDel m k p hp)

theorem portfolioInv_lookup (m : List (String × Int)) (k : String) (q : Int)
    (hm : portfolioInv m = true) (h : dictGet m k = some q) : 0 < q :=
  (portfolioInv_iff m).mp hm _ (dictGet_mem m k q h)

theorem buy_portfolio_inv (db : String → Option Stocks)
    (fetch : String → Option ℚ) (s : PortfolioState) (stockSymbol : String)
    (shares : PyVal) (now : ℚ) (h : portfolioInv s.portfolio = true) :
    portfolioInv (buyStock db fetch s stockSymbol shares now).2.portfolio = true := by
  have hv1 := validate_portfolio db s stockSymbol true now
  rcases h1 : validateStockTicker db s stockSymbol true now with ⟨r1, s1⟩
  rw [h1] at hv1
  dsimp only at hv1
  unfold buyStock
  rw [h1]
  rcases r1 with e | sym
  · dsimp only
    rw [hv1]
    exact h
  · dsimp only
    rcases h2 : validateSharesCount shares with e | n
    · dsimp only
      rw [hv1]
      exact h
    · dsimp only
      have hp1 := getPrice_portfolio fetch s1 sym now
      rcases h3 : getPriceFromCacheOrMarket fetch s1 sym now with ⟨r3, s2, m⟩
      rw [h3] at hp1
      dsimp only at hp1
      rcases r3 with e | price
      · dsimp only
        rw [hp1, hv1]
        exact h
      · dsimp only
        have hn := sharesCount_pos shares n h2
        have hs2 : s2.portfolio = s.portfolio := by rw [hp1, hv1]
        rcases hq : dictGet s2.portfolio sym with _ | q
        · dsimp only
          rw [hs2]
          exact portfolioInv_dictSet s.portfolio sym n h hn
        · dsimp only
          rw [hs2] at hq ⊢
          have hqpos := portfolioInv_lookup s.portfolio sym q h hq
          exact portfolioInv_dictSet s.portfolio sym (q + n) h (by omega)



theorem sell_portfolio_inv (db : String → Option Stocks)
    (fetch : String → Option ℚ) (s : PortfolioState) (stockSymbol : String)
    (shares : PyVal) (now : ℚ) (h : portfolioInv s.portfolio = true) :
    portfolioInv (sellStock db fetch s stockSymbol shares now).2.portfolio = true := by
  unfold sellStock
  by_cases he : s.portfolio = []
  · rw [if_pos he]
    exact h
  · rw [if_neg he]
    have hv1 := validate_portfolio db s stockSymbol true now
    rcases h1 : validateStockTicker db s stockSymbol true now with ⟨r1, s1⟩
    rw [h1] at hv1
    dsimp only at hv1
    rcases r1 with e | sym
    · dsimp only
      rw [hv1]
      exact h
    · dsimp only
      rcases h2 : validateSharesCount shares with e | n
      · dsimp only
        rw [hv1]
        exact h
      · dsimp only
        rcases hq : dictGet s1.portfolio sym with _ | owned
        · dsimp only
          rw [hv1]
          exact h
        · dsimp only
          by_cases ho : owned < n
          · rw [if_pos ho]
            dsimp only
            rw [hv1]
            exact h
          · rw [if_neg ho]
            have hp1 := getPrice_portfolio fetch s1 sym now
            rcases h3 : getPriceFromCacheOrMarket fetch s1 sym now with ⟨r3, s2, m⟩
            rw [h3] at hp1
            dsimp only at hp1
            rcases r3 with e | price
            · dsimp only
              rw [hp1, hv1]
              exact h
            · dsimp only
              have hs2 : s2.portfolio = s.portfolio := by rw [hp1, hv1]
              by_cases hz : owned - n = 0
              · rw [if_pos hz]
                rw [hs2]
                exact portfolioInv_dictDel s.portfolio sym h
              · rw [if_neg hz]
                rw [hs2]
                rw [hv1] at hq
                have hpos := portfolioInv_lookup s.portfolio sym owned h hq
                exact portfolioInv_dictSet s.portfolio sym (owned - n) h (by omega)

theorem remove_portfolio_inv (db : String → Option Stocks)
    (s : PortfolioState) (ticker : String) (quantity : Int) (now : ℚ)
    (h : portfolioInv s.portfolio = true) :
    portfolioInv (removeStockFromPortfolio db s ticker quantity now).2.portfolio = true := by
  unfold removeStockFromPortfolio
  by_cases he : s.portfolio = []
  · rw [if_pos he]
    exact h
  · rw [if_neg he]
    have hv1 := validate_portfolio db s ticker true now
    rcases h1 : validateStockTicker db s ticker true now with ⟨r1, s1⟩
    rw [h1] at hv1
    dsimp only at hv1
    rcases r1 with e | t
    · dsimp only
      rw [hv1]
      exact h
    · dsimp only
      rcases hq : dictGet s1.portfolio t with _ | owned
      · dsimp only
        rw [hv1]
        exact h
      · dsimp only
        by_cases ho : owned < quantity
        · rw [if_pos ho]
          dsimp only
          rw [hv1]
          exact h
        · rw [if_neg ho]
          by_cases heq : owned = quantity
          · rw [if_pos heq]
            dsimp only
            rw [hv1]
            exact portfolioInv_dictDel s.portfolio t h
          · rw [if_neg heq]
            dsimp only
            rw [hv1]
            rw [hv1] at hq
            have hpos := portfolioInv_lookup s.portfolio t owned h hq
            exact portfolioInv_dictSet s.portfolio t (owned - quantity) h (by omega)

/-- Context of one method call: the database and provider oracles in effect
and the wall-clock time `time.time()` returns during the call. -/
structure OpCtx where
  db : String → Option Stocks
  fetch : String → Option ℚ
  now : ℚ

/-- One mutating portfolio operation of the claim: a buy, a sell, or a
`remove_stock_from_portfolio` decrease. -/
inductive Op where
  | buy (stockSymbol : String) (shares : PyVal)
  | sell (stockSymbol : String) (shares : PyVal)
  | remove (ticker : String) (quantity : Int)

/-- State after running one operation (the state at normal or exceptional
exit — a raised `ValueError` leaves the state the method had built so far). -/
def stepOp (c : OpCtx) (s : PortfolioState) : Op → PortfolioState
  | .buy sym sh => (buyStock c.db c.fetch s sym sh c.now).2
  | .sell sym sh => (sellStock c.db c.fetch s sym sh c.now).2
  | .remove t q => (removeStockFromPortfolio c.db s t q c.now).2

/-- State after running a sequence of operations. -/
def runOps (s : PortfolioState) : List (OpCtx × Op) → PortfolioState
  | [] => s
  | co :: rest => runOps (stepOp co.1 s co.2) rest

theorem stepOp_inv (c : OpCtx) (s : PortfolioState) (op : Op)
    (h : portfolioInv s.portfolio = true) :
    portfolioInv (stepOp c s op).portfolio = true := by
  cases op with
  | buy sym sh => exact buy_portfolio_inv c.db c.fetch s sym sh c.now h
  | sell sym sh => exact sell_portfolio_inv c.db c.fetch s sym sh c.now h
  | remove t q => exact remove_portfolio_inv c.db s t q c.now h

/-- C7: every buy/sell/remove sequence keeps all stored quantities
positive. -/
theorem holdings_positive_invariant (s : PortfolioState)
    (h : portfolioInv s.portfolio = true) (trace : List (OpCtx × Op)) :
    portfolioInv (runOps s trace).portfolio = true := by
  induction trace generalizing s with
  | nil => exact h
  | cons co rest ih => exact ih (stepOp co.1 s co.2) (stepOp_inv co.1 s co.2 h)



theorem priceFetch_calls (fetch : String → Option ℚ) (s : PortfolioState)
    (sym : String) (now : ℚ) :
    (priceFetchAndInstall fetch s sym now).2.2 = 1 := by
  unfold priceFetchAndInstall
  split <;> rfl

theorem priceFetch_ok (fetch : String → Option ℚ) (s : PortfolioState)
    (sym : String) (now : ℚ) (p : ℚ) (hf : fetch sym = some p) :
    priceFetchAndInstall fetch s sym now =
      (.ok p,
       { s with priceCache := dictSet s.priceCache sym p,
                ttl := dictSet s.ttl sym (now + s.ttlSeconds) }, 1) := by
  unfold priceFetchAndInstall
  rw [hf]

theorem getPrice_miss (fetch : String → Option ℚ) (s : PortfolioState)
    (stockSymbol : String) (now : ℚ)
    (hmiss : dictGet s.priceCache stockSymbol.toUpper = none ∨
      (dictGet s.ttl stockSymbol.toUpper).getD 0 ≤ now) :
    getPriceFromCacheOrMarket fetch s stockSymbol now =
      priceFetchAndInstall fetch s stockSymbol.toUpper now := by
  unfold getPriceFromCacheOrMarket
  dsimp only
  rcases hc : dictGet s.priceCache stockSymbol.toUpper with _ | cached
  · rfl
  · dsimp only
    rcases hmiss with hm | hm
    · rw [hc] at hm
      cases hm
    · have hng : ¬((dictGet s.ttl stockSymbol.toUpper).getD 0 > now) :=
        not_lt.mpr hm
      rw [if_neg hng]

theorem getPrice_hit (fetch : String → Option ℚ) (s : PortfolioState)
    (stockSymbol : String) (now : ℚ) (p : ℚ)
    (hc : dictGet s.priceCache stockSymbol.toUpper = some p)
    (ht : now < (dictGet s.ttl stockSymbol.toUpper).getD 0) :
    getPriceFromCacheOrMarket fetch s stockSymbol now = (.ok p, s, 0) := by
  unfold getPriceFromCacheOrMarket
  dsimp only
  rw [hc]
  dsimp only
  rw [if_pos ht]

/-- C5: a price-cache lookup serves a still-valid entry with no provider
call and otherwise performs exactly one provider fetch, installing on
success a fresh entry whose expiry is `now + ttl_seconds`. -/
theorem price_cache_get_spec (fetch : String → Option ℚ)
    (s : PortfolioState) (stockSymbol : String) (now : ℚ) :
    (∀ p, dictGet s.priceCache stockSymbol.toUpper = some p →
        now < (dictGet s.ttl stockSymbol.toUpper).getD 0 →
        getPriceFromCacheOrMarket fetch s stockSymbol now = (.ok p, s, 0))
    ∧ ((dictGet s.priceCache stockSymbol.toUpper = none ∨
          (dictGet s.ttl stockSymbol.toUpper).getD 0 ≤ now) →
        (getPriceFromCacheOrMarket fetch s stockSymbol now).2.2 = 1
        ∧ ∀ p, fetch stockSymbol.toUpper = some p →
            getPriceFromCacheOrMarket fetch s stockSymbol now =
              (.ok p,
               { s with
                  priceCache := dictSet s.priceCache stockSymbol.toUpper p,
                  ttl := dictSet s.ttl stockSymbol.toUpper
                    (now + s.ttlSeconds) }, 1)) := by
  constructor
  · intro p hc ht
    exact getPrice_hit fetch s stockSymbol now p hc ht
  · intro hmiss
    rw [getPrice_miss fetch s stockSymbol now hmiss]
    constructor
    · exact priceFetch_calls fetch s stockSymbol.toUpper now
    · intro p hf
      exact priceFetch_ok fetch s stockSymbol.toUpper now p hf

/-- C6: when the provider lookup fails on a cache miss, the `ValueError`
propagates and neither the price cache nor the TTL map is written. -/
theorem price_cache_failure_no_write (fetch : String → Option ℚ)
    (s : PortfolioState) (stockSymbol : String) (now : ℚ)
    (hmiss : dictGet s.priceCache stockSymbol.toUpper = none ∨
      (dictGet s.ttl stockSymbol.toUpper).getD 0 ≤ now)
    (hf : fetch stockSymbol.toUpper = none) :
    getPriceFromCacheOrMarket fetch s stockSymbol now =
      (.error (.valueError
        ("Could not retrieve market price for " ++ stockSymbol.toUpper)),
       s, 1) := by
  rw [getPrice_miss fetch s stockSymbol now hmiss]
  unfold priceFetchAndInstall
  rw [hf]



theorem buy_err_or_unchanged (db : String → Option Stocks)
    (fetch : String → Option ℚ) (s : PortfolioState) (stockSymbol : String)
    (shares : PyVal) (now : ℚ) :
    isErr (buyStock db fetch s stockSymbol shares now).1 = false ∨
    (buyStock db fetch s stockSymbol shares now).2.portfolio = s.portfolio := by
  have hv1 := validate_portfolio db s stockSymbol true now
  rcases h1 : validateStockTicker db s stockSymbol true now with ⟨r1, s1⟩
  rw [h1] at hv1
  dsimp only at hv1
  unfold buyStock
  rw [h1]
  rcases r1 with e | sym
  · dsimp only
    right
    exact hv1
  · dsimp only
    rcases h2 : validateSharesCount shares with e | n
    · dsimp only
      right
      exact hv1
    · dsimp only
      have hp1 := getPrice_portfolio fetch s1 sym now
      rcases h3 : getPriceFromCacheOrMarket fetch s1 sym now with ⟨r3, s2, m⟩
      rw [h3] at hp1
      dsimp only at hp1
      rcases r3 with e | price
      · dsimp only
        right
        rw [hp1, hv1]
      · dsimp only
        left
        rfl

/-- C8: a buy that raises (in particular one whose price fetch fails after
validation) leaves the holdings map exactly as it was. -/
theorem buy_atomic_on_failure (db : String → Option Stocks)
    (fetch : String → Option ℚ) (s : PortfolioState) (stockSymbol : String)
    (shares : PyVal) (now : ℚ)
    (h : isErr (buyStock db fetch s stockSymbol shares now).1 = true) :
    (buyStock db fetch s stockSymbol shares now).2.portfolio = s.portfolio := by
  rcases buy_err_or_unchanged db fetch s stockSymbol shares now with hc | hc
  · rw [h] at hc
    cases hc
  · exact hc

theorem getStock_ok_of_db (db : String → Option Stocks) (s : PortfolioState)
    (ticker : String) (now : ℚ) (st : Stocks) (hdb : db ticker = some st) :
    isErr (getStockFromCacheOrDb db s ticker now).1 = false := by
  unfold getStockFromCacheOrDb
  split
  · split
    · rfl
    · unfold stockFetchAndInstall
      rw [hdb]
      rfl
  · unfold stockFetchAndInstall
    rw [hdb]
    rfl


theorem validate_false_ok (db : String → Option Stocks) (s : PortfolioState)
    (ticker : String) (now : ℚ) (st : Stocks) (hdb : db ticker = some st) :
    isErr (validateStockTicker db s ticker false now).1 = false := by
  have hok := getStock_ok_of_db db s ticker now st hdb
  unfold validateStockTicker
  rw [if_neg (by simp)]
  rcases hg : getStockFromCacheOrDb db s ticker now with ⟨r, s1, n⟩
  rw [hg] at hok
  rcases r with e | stv
  · simp [isErr] at hok
  · rfl

/-- C9: for a ticker absent from the holdings, `add_stock_to_portfolio`
always raises and never inserts; when the ticker does resolve in the
database, the error is specifically the uncaught `UnboundLocalError` on the
local `stock`, not the documented `ValueError`. -/
theorem addStock_insert_unreachable (db : String → Option Stocks)
    (s : PortfolioState) (ticker : String) (quantity : Int) (now : ℚ)
    (habs : dictGet s.portfolio ticker = none) :
    isErr (addStockToPortfolio db s ticker quantity now).1 = true
    ∧ (addStockToPortfolio db s ticker quantity now).2.portfolio = s.portfolio
    ∧ (∀ st, db ticker = some st →
        (addStockToPortfolio db s ticker quantity now).1 =
          .error (.unboundLocalError "stock")) := by
  have hv1 := validate_portfolio db s ticker false now
  rcases h1 : validateStockTicker db s ticker false now with ⟨r1, s1⟩
  rw [h1] at hv1
  dsimp only at hv1
  unfold addStockToPortfolio
  rw [h1]
  rcases r1 with e | t
  · dsimp only
    refine ⟨rfl, hv1, ?_⟩
    intro st hdb
    have hok := validate_false_ok db s ticker now st hdb
    rw [h1] at hok
    simp [isErr] at hok
  · have ht : t = ticker := validate_ok_ticker db s ticker false now t s1 h1
    subst ht
    have hq : dictGet s1.portfolio t = none := by
      rw [hv1]
      exact habs
    dsimp only
    rw [hq]
    dsimp only
    exact ⟨rfl, hv1, fun st hdb => rfl⟩



/-- Database oracle resolving exactly the ticker "AAPL", at the stored price
174.35 used by the repository's fixtures. -/
def dbApple : String → Option Stocks :=
  fun t => if t = "AAPL" then some { ticker := "AAPL", currentPrice := 17435/100 } else none

/-- Provider oracle quoting "AAPL" at 174.35 and failing on everything else. -/
def fetchApple : String → Option ℚ :=
  fun t => if t = "AAPL" then some (17435/100) else none

/-- Provider oracle quoting "AAPL" at 180.00 (a later market price). -/
def fetchApple180 : String → Option ℚ :=
  fun t => if t = "AAPL" then some 180 else none

/-- Provider oracle quoting "AAPL" at 100. -/
def fetchStale : String → Option ℚ :=
  fun t => if t = "AAPL" then some 100 else none

/-- Provider oracle on which every lookup fails. -/
def fetchNone : String → Option ℚ := fun _ => none

/-- Portfolio holding one AAPL share, with a fresh AAPL price cached and a
TTL entry far in the future. -/
def sHeld : PortfolioState :=
  { portfolio := [("AAPL", 1)], stockCache := [],
    priceCache := [("AAPL", 17435/100)], ttl := [("AAPL", 1000)],
    ttlSeconds := 60 }

/-- C1: on an empty portfolio, `buy_stock("AAPL", 10)` with "AAPL" present
in the database and priced at 174.35 does not succeed: the default
`check_in_portfolio=True` validation raises the not-in-portfolio
`ValueError` and the holdings stay empty. -/
theorem buy_rejects_unowned_ticker :
    buyStock dbApple fetchApple initState "AAPL" (.int 10) 0 =
      (.error (.valueError "Stock AAPL not found in portfolio"), initState) := by
  with_unfolding_all rfl

/-- C3: with holdings AAPL:2, GOOGL:1 where the GOOGL fetch fails,
`calculate_portfolio_value` does not propagate the failure: it swallows the
exception, performs both provider calls, and returns the partial sum
2 x 174.35 = 348.70. -/
theorem valuation_skips_failed_ticker :
    calculatePortfolioValue fetchApple
        { initState with portfolio := [("AAPL", 2), ("GOOGL", 1)] } =
      (.ok (3487/10), 2) := by
  with_unfolding_all rfl

/-- C4: valuation never reads the price cache: with a fresh cached AAPL
price (TTL far in the future), each of two back-to-back valuations performs
its own provider call and returns whatever the provider quotes at that
moment, so the two calls disagree when the quote moves. -/
theorem valuation_bypasses_cache :
    calculatePortfolioValue fetchApple sHeld = (.ok (17435/100), 1)
    ∧ calculatePortfolioValue fetchApple180 sHeld = (.ok 180, 1)
    ∧ (17435/100 : ℚ) ≠ 180 := by
  refine ⟨by with_unfolding_all rfl, by with_unfolding_all rfl, by norm_num⟩

/-- C2 counterexample: the fractional share count 2.5 is not rejected;
`int(2.5)` truncates and validation returns 2. -/
theorem fractional_shares_accepted :
    validateSharesCount (.float (5/2)) = .ok 2 := by
  with_unfolding_all rfl

/-- C2 (amended): validation fails exactly when Python's `int()` coercion
fails or the coerced value is ≤ 0; on success it returns the coerced
value, which for a fractional float is its truncation toward zero. -/
theorem validateSharesCount_spec (v : PyVal) :
    (∀ n : Int, validateSharesCount v = .ok n ↔ (pyInt v = some n ∧ 0 < n))
    ∧ (isErr (validateSharesCount v) = true ↔
        (pyInt v = none ∨ ∃ n : Int, pyInt v = some n ∧ n ≤ 0)) := by
  cases hv : pyInt v with
  | none =>
      constructor
      · intro n
        simp [validateSharesCount, hv]
      · simp [validateSharesCount, hv, isErr]
  | some m =>
      constructor
      · intro n
        by_cases hm : m ≤ 0
        · simp [validateSharesCount, hv, hm]
          omega
        · simp [validateSharesCount, hv, hm]
          intro h
          omega
      · by_cases hm : m ≤ 0
        · simp [validateSharesCount, hv, hm, isErr]
        · simp [validateSharesCount, hv, hm, isErr]

/-- C10: the two caches share one TTL map, so a stock-record refresh at any
time t1 re-arms the TTL that guards the price entry; a price lookup at any
t2 < t1 + 60 is then served from cache with zero provider calls, returning
the price fetched at time 0 even when t2 exceeds the 60-second TTL, so
price staleness is unbounded. -/
theorem shared_ttl_unbounded_staleness (t1 t2 : ℚ)
    (h1 : t2 < t1 + 60) (h2 : 60 < t2) :
    ((getPriceFromCacheOrMarket fetchNone
        ((getStockFromCacheOrDb dbApple
            ((getPriceFromCacheOrMarket fetchStale initState "AAPL" 0).2.1)
            "AAPL" t1).2.1) "AAPL" t2).1 = .ok 100
     ∧ (getPriceFromCacheOrMarket fetchNone
        ((getStockFromCacheOrDb dbApple
            ((getPriceFromCacheOrMarket fetchStale initState "AAPL" 0).2.1)
            "AAPL" t1).2.1) "AAPL" t2).2.2 = 0)
    ∧ initState.ttlSeconds < t2 - 0 := by
  have hU : "AAPL".toUpper = "AAPL" := by with_unfolding_all rfl
  have hs1 : (getPriceFromCacheOrMarket fetchStale initState "AAPL" 0).2.1 =
      { portfolio := [], stockCache := [], priceCache := [("AAPL", 100)],
        ttl := [("AAPL", 60)], ttlSeconds := 60 } := by
    with_unfolding_all rfl
  have hs2 : (getStockFromCacheOrDb dbApple
      { portfolio := [], stockCache := [], priceCache := [("AAPL", 100)],
        ttl := [("AAPL", 60)], ttlSeconds := 60 } "AAPL" t1).2.1 =
      { portfolio := [],
        stockCache := [("AAPL", { ticker := "AAPL", currentPrice := 17435/100 })],
        priceCache := [("AAPL", 100)], ttl := [("AAPL", t1 + 60)],
        ttlSeconds := 60 } := by
    simp [getStockFromCacheOrDb, stockFetchAndInstall, dbApple, dictGet, dictSet]
  rw [hs1, hs2]
  have hhit := getPrice_hit fetchNone
      { portfolio := [],
        stockCache := [("AAPL", { ticker := "AAPL", currentPrice := 17435/100 })],
        priceCache := [("AAPL", 100)], ttl := [("AAPL", t1 + 60)],
        ttlSeconds := 60 } "AAPL" t2 100
      (by rw [hU]; simp [dictGet])
      (by rw [hU]; simp [dictGet]; exact h1)
  rw [hhit]
  refine ⟨⟨rfl, rfl⟩, ?_⟩
  have : initState.ttlSeconds = 60 := rfl
  rw [this, sub_zero]
  exact h2

/-- Portfolio owning 5 AAPL shares in an otherwise fresh state. -/
def sOwned : PortfolioState := { initState with portfolio := [("AAPL", 5)] }

/-- Trace of one sell that disposes of the entire AAPL position. -/
def sellAllTrace : List (OpCtx × Op) :=
  [({ db := dbApple, fetch := fetchApple, now := 0 }, .sell "AAPL" (.int 5))]

/-- Witness for C5: with the cached AAPL entry of `sHeld` (expiry 1000), a
lookup at time 50 is a hit with zero provider calls, and a lookup at time
2000 refetches, installing price 180 with expiry 2060. -/
theorem price_cache_get_spec_witness :
    getPriceFromCacheOrMarket fetchApple180 sHeld "AAPL" 50 =
      (.ok (17435/100), sHeld, 0)
    ∧ getPriceFromCacheOrMarket fetchApple180 sHeld "AAPL" 2000 =
      (.ok 180,
       { sHeld with priceCache := [("AAPL", 180)], ttl := [("AAPL", 2060)] },
       1) := by
  constructor
  · exact (price_cache_get_spec fetchApple180 sHeld "AAPL" 50).1 (17435/100)
      (by with_unfolding_all rfl) (by with_unfolding_all decide)
  · exact (((price_cache_get_spec fetchApple180 sHeld "AAPL" 2000).2
      (Or.inr (by with_unfolding_all decide))).2 180
      (by with_unfolding_all rfl)).trans (by with_unfolding_all rfl)

/-- Witness for C6: a failing provider lookup of "MSFT" on the empty cache
propagates the `ValueError` and leaves the state untouched. -/
theorem price_cache_failure_no_write_witness :
    getPriceFromCacheOrMarket fetchNone initState "MSFT" 0 =
      (.error (.valueError "Could not retrieve market price for MSFT"),
       initState, 1) :=
  (price_cache_failure_no_write fetchNone initState "MSFT" 0
      (Or.inl (by with_unfolding_all rfl)) (by with_unfolding_all rfl)).trans
    (by with_unfolding_all rfl)

/-- Witness for C7: selling the whole 5-share AAPL position keeps the
invariant (the entry is deleted rather than stored as 0). -/
theorem holdings_positive_invariant_witness :
    portfolioInv (runOps sOwned sellAllTrace).portfolio = true :=
  holdings_positive_invariant sOwned (by decide) sellAllTrace

/-- Witness for C8: a buy of owned AAPL whose price fetch fails raises and
leaves the 5-share holding unchanged. -/
theorem buy_atomic_on_failure_witness :
    (buyStock dbApple fetchNone sOwned "AAPL" (.int 10) 0).2.portfolio =
      sOwned.portfolio :=
  buy_atomic_on_failure dbApple fetchNone sOwned "AAPL" (.int 10) 0
    (by with_unfolding_all rfl)

/-- Witness for C9: adding 3 shares of the database-resolvable but unheld
"AAPL" to the empty portfolio raises the `UnboundLocalError`. -/
theorem addStock_insert_unreachable_witness :
    (addStockToPortfolio dbApple initState "AAPL" 3 0).1 =
      .error (.unboundLocalError "stock") :=
  (addStock_insert_unreachable dbApple initState "AAPL" 3 0
      (by with_unfolding_all rfl)).2.2
    { ticker := "AAPL", currentPrice := 17435/100 } (by with_unfolding_all rfl)

/-- Witness for C10: price fetched at time 0, stock record refreshed at
time 1000, price lookup at time 1050 — a cache hit returning the price from
time 0, 1050 seconds stale against a 60-second TTL. -/
theorem shared_ttl_unbounded_staleness_witness :
    ((getPriceFromCacheOrMarket fetchNone
        ((getStockFromCacheOrDb dbApple
            ((getPriceFromCacheOrMarket fetchStale initState "AAPL" 0).2.1)
            "AAPL" 1000).2.1) "AAPL" 1050).1 = .ok 100
     ∧ (getPriceFromCacheOrMarket fetchNone
        ((getStockFromCacheOrDb dbApple
            ((getPriceFromCacheOrMarket fetchStale initState "AAPL" 0).2.1)
            "AAPL" 1000).2.1) "AAPL" 1050).2.2 = 0)
    ∧ initState.ttlSeconds < 1050 - 0 :=
  shared_ttl_unbounded_staleness 1000 1050 (by norm_num) (by norm_num)

/-- Witness for C2 (amended): the characterization applied at the integer
input 5 yields acceptance with value 5. -/
theorem validateSharesCount_spec_witness :
    validateSharesCount (.int 5) = .ok 5 :=
  ((validateSharesCount_spec (.int 5)).1 5).mpr ⟨rfl, by norm_num⟩

end Trading
